import Mathlib

/-!
Shallow embedding of `DBViewer.py` (RCSB Disulfide Bond Database Browser,
a Panel/PyVista application) and proofs about its selection-to-render
cascade.

The embedding models the module-level widget state as an explicit record
`AppState`, the external collaborators (disulfide loader, renderer,
session context) as an `Env` record, and each user-originated event as a
constructor of `Event`.  Event handlers are translated from the watcher
callbacks wired in `DBViewer.py` (lines 140-143, 77) into state-passing
functions; a Python exception escaping a handler is modelled by the
`Outcome.raised` result, in which case the state returned is exactly the
mutations committed before the raise.

A central fact of the staged source is modelled faithfully: `render_ss`
is defined with a required positional parameter `clk` (line 178), yet
both of its call sites invoke it with zero arguments — `click_plot` at
line 64 and the module-level startup render at line 209.  Every such
call raises `TypeError` before the function body runs.  Consequently
`click_plot` (the only render path of the event dynamics) always raises
without rendering, and module execution aborts at line 209, so the
session never starts.  `render_ss` is embedded here with its `clk`
parameter; theorems applying it to an argument are statements about the
function's body, which in the staged program is dead code.
-/

namespace SSViewer

/-- An entry of the disulfide database (`proteusPy.Disulfide`).  Only the
fields read by `DBViewer.py` are modelled; the numeric fields are
modelled as rationals (the source holds finite Python floats and only
ever formats them with 2-decimal precision). -/
structure Disulfide where
  pdb_id : String
  name : String
  energy : ℚ
  resolution : ℚ
  ca_distance : ℚ
  cb_distance : ℚ
  torsion_length : ℚ
deriving DecidableEq, Repr

/-- The loaded database (`PDB_SS = Load_PDB_SS(...)`, line 32).  `SSDict`
maps an RCSB entry id to the list of its disulfides, mirroring
`PDB_SS.SSDict`. -/
structure DisulfideLoader where
  SSDict : List (String × List Disulfide)
deriving DecidableEq, Repr

/-- Modelled from the spec: the database collaborator lookup
`listItemIdsFor(entryId) → sequence, fails UnknownEntry` (§6); the
implementation `proteusPy.DisulfideLoader.__getitem__` used at
`PDB_SS[rcs_id]` (line 134) is not part of this repository.  `none`
models the failure case. -/
def DisulfideLoader.getEntry (db : DisulfideLoader) (id : String) : Option (List Disulfide) :=
  db.SSDict.lookup id

/-- Modelled from the spec: the database collaborator lookup
`getItem(itemId) → Item, fails ItemNotFound` (§6), used at
`PDB_SS[ss_id]` (line 192).  The source checks the result with
`if ss is None` (line 193), so a missing id is modelled as `none`; the
widget value itself can be `None` (empty option list), which also fails
the lookup. -/
def DisulfideLoader.getSS (db : DisulfideLoader) (id : Option String) : Option Disulfide :=
  match id with
  | none => none
  | some n => db.SSDict.findSome? (fun p => p.2.find? (fun ss => ss.name == n))

/-- `PDB_SS.IDList` (line 41): the RCSB ids present in the database. -/
def DisulfideLoader.IDList (db : DisulfideLoader) : List String :=
  db.SSDict.map (fun p => p.1)

/-- Insertion step for `sortStrings` (models Python `sorted`). -/
def insertSorted (x : String) : List String → List String
  | [] => [x]
  | y :: ys => if x ≤ y then x :: y :: ys else y :: insertSorted x ys

/-- Models Python `sorted` on a list of strings (insertion sort; only
membership matters to the proofs). -/
def sortStrings (l : List String) : List String :=
  l.foldr insertSorted []

/-- `RCSB_list = sorted(PDB_SS.IDList)` (line 41): the fixed option list
of the `rcsb_selector_widget` autocomplete. -/
def RCSB_list (db : DisulfideLoader) : List String :=
  sortStrings db.IDList

/-- Models Python fixed-point formatting `f-string :.2f` as used on the
disulfide fields (lines 158, 166): round to hundredths and print with
exactly two digits after the decimal point.  (CPython rounds the binary
float half-to-even; the tie-breaking mode is immaterial to the claims.) -/
def fmt2 (q : ℚ) : String :=
  let n : Int := round (q * 100)
  let a : Nat := n.natAbs
  (if n < 0 then "-" else "") ++ toString (a / 100) ++ "." ++
    (if a % 100 < 10 then "0" else "") ++ toString (a % 100)

/-- Embeds `get_theme` (lines 45-54).  `args` models
`pn.state.session_args`, the parsed query string: each present key maps
to the list of its values (bytes are modelled as strings).  The source
reads `args["theme"][0]`, so a present key with an empty value list
would raise `IndexError`; that crash is modelled as `none`.  (The HTTP
layer never produces an empty value list.) -/
def get_theme (args : List (String × List String)) : Option String :=
  match args.lookup "theme" with
  | none => some "default"
  | some vs =>
    match vs.head? with
    | none => none
    | some v => if v = "dark" then some "dark" else some "default"

/-- The style dictionary of `render_ss` (line 182):
`styles = {"Split Bonds": 'sb', "CPK": 'cpk', "Ball and Stick": 'bs'}`. -/
def styles : List (String × String) :=
  [("Split Bonds", "sb"), ("CPK", "cpk"), ("Ball and Stick", "bs")]

/-- The options of `styles_group` (lines 79-81). -/
def styles_options : List String :=
  ["Split Bonds", "CPK", "Ball and Stick"]

/-- The argument tuple of the renderer call
`ss.plot(single=single, style=style, shadows=False, light=light)`
(line 201), together with the receiver's identity: the render request
that the body of `render_ss` would hand to the rendering collaborator. -/
structure RenderRequest where
  item : String
  single : Bool
  style : String
  shadows : Bool
  light : Bool
deriving DecidableEq, Repr

/-- The Python exceptions that can escape a handler, and the validation
rejections performed by the widgets. -/
inductive UIError where
  /-- `render_ss()` invoked without its required positional parameter
  `clk` (definition line 178; zero-argument calls at lines 64 and 209):
  `TypeError` raised before the function body executes. -/
  | typeError : UIError
  /-- `PDB_SS[rcs_id]` fails for an unknown entry id. -/
  | unknownEntry : UIError
  /-- `PDB_SS[ss_id]` is `None` in the body of `render_ss`; the recovery
  code `update_output(f'Cannot find ss_id ...')` (line 194) itself
  raises `AttributeError` reading `.energy` on the message string. -/
  | itemNotFound : UIError
  /-- a value outside `options` assigned to the `rcsb_ss_widget`
  selector raises `ValueError` at the parameter boundary. -/
  | invalidItem : UIError
  /-- a value outside `options` assigned to `styles_group` raises
  `ValueError` at the parameter boundary. -/
  | invalidStyle : UIError
  /-- `styles[styles_group.value]` (line 199) raises `KeyError`. -/
  | styleKeyError : UIError
  /-- `args["theme"][0]` raises `IndexError` (line 52). -/
  | themeError : UIError
  /-- the rendering collaborator `ss.plot(...)` (line 201) fails. -/
  | plotFailure : UIError
deriving DecidableEq, Repr

/-- Result of running a handler: either normal completion (carrying the
render request issued during the handler, if any), or a Python exception
escaping the handler. -/
inductive Outcome where
  | ok : Option RenderRequest → Outcome
  | raised : UIError → Outcome
deriving DecidableEq, Repr

/-- The module-level mutable state of `DBViewer.py`: the widget values,
the markdown text regions and the displayed render surface
(`render_win[1]`, modelled by the request its pane was built from).
`theme_resolutions` instruments the number of executed `get_theme()`
calls (sole call site: line 184, inside the body of `render_ss`); in
the staged program it never advances, because every `render_ss()` call
raises `TypeError` before the body. -/
structure AppState where
  rcsb_selector_value : String
  rcsb_ss_options : List String
  rcsb_ss_value : Option String
  styles_value : String
  styles_disabled : Bool
  single_value : Bool
  title_md : String
  info_md : String
  output_md : String
  render_win : Option RenderRequest
  theme_resolutions : Nat
deriving DecidableEq, Repr

/-- The external collaborators of the session: the loaded database, the
request context (`pn.state.session_args`) and the rendering
collaborator, modelled by which requests it fails on. -/
structure Env where
  db : DisulfideLoader
  session_args : List (String × List String)
  plot_fails : RenderRequest → Bool

/-- Embeds `update_title` (lines 145-150): writes `## {name}` to the
title markdown region. -/
def update_title (st : AppState) (ss : Disulfide) : AppState :=
  { st with title_md := "## " ++ ss.name }

/-- Embeds `update_info` (lines 152-159): writes the multi-line info
block to the info markdown region. -/
def update_info (st : AppState) (ss : Disulfide) : AppState :=
  { st with info_md :=
      "### " ++ ss.name ++ "  \n**Resolution:** " ++ fmt2 ss.resolution ++
      " Å  \n**Energy:** " ++ fmt2 ss.energy ++
      " kcal/mol  \n**Cα distance:** " ++ fmt2 ss.ca_distance ++
      " Å  \n**Cβ distance:** " ++ fmt2 ss.cb_distance ++
      " Å  \n**Torsion Length:** " ++ fmt2 ss.torsion_length ++ "°" }

/-- Embeds `update_output` (lines 161-167): writes the single-line
summary to the output markdown region.  (Note: the body reads
`ss.energy` etc. before assigning `output_md.object`; on a non-item
argument it raises before writing anything — see `render_ss`.) -/
def update_output (st : AppState) (ss : Disulfide) : AppState :=
  { st with output_md :=
      "**Cα-Cα:** " ++ fmt2 ss.ca_distance ++
      " Å **Cβ-Cβ:** " ++ fmt2 ss.cb_distance ++
      " Å **Torsion Length:** " ++ fmt2 ss.torsion_length ++
      "° **Resolution:** " ++ fmt2 ss.resolution ++
      " Å **Energy:** " ++ fmt2 ss.energy ++ " kcal/mol" }

/-- The decision core of the body of `render_ss` (lines 181-201), split
out as a function of exactly the state it reads (`rcsb_ss_widget.value`,
`styles_group.value`, `single_checkbox.value`): resolve the theme,
look the selected disulfide up, map the style label through `styles`,
build the request and call the renderer.  Errors are the exceptions of
the corresponding source lines. -/
def compute_render (env : Env) (ss_id : Option String) (style_label : String)
    (single : Bool) : Except UIError (Disulfide × RenderRequest) :=
  match get_theme env.session_args with
  | none => .error .themeError
  | some theme =>
    let light : Bool := if theme = "dark" then false else true
    match env.db.getSS ss_id with
    | none => .error .itemNotFound
    | some ss =>
      match styles.lookup style_label with
      | none => .error .styleKeyError
      | some style =>
        let req : RenderRequest :=
          { item := ss.name, single := single, style := style,
            shadows := false, light := light }
        if env.plot_fails req then .error .plotFailure else .ok (ss, req)

/-- Embeds `render_ss` (lines 178-207) with its required positional
parameter `clk` (line 178), which the body never uses.  NOTE: no call
site of the staged program supplies the argument — both calls, line 64
and line 209, are `render_ss()` and raise `TypeError` before this body
(see `click_plot` and `startup`) — so in the staged program this body is
dead code.  On success the three markdown regions are updated (lines
203-205) and the request of the obtained plotter is returned.  On the
`ss is None` branch the source calls
`update_output(f'Cannot find ss_id {ss_id}! Returning!')` (line 194),
which raises `AttributeError` evaluating `ss.energy` on the message
string before `output_md` is assigned, so the state is returned
unchanged and the exception escapes.  The `theme_resolutions` counter
records the `get_theme()` call of line 184. -/
def render_ss (clk : Unit) (env : Env) (st : AppState) : AppState × Outcome :=
  match compute_render env st.rcsb_ss_value st.styles_value st.single_value with
  | .error e =>
    ({ st with theme_resolutions := st.theme_resolutions + 1 }, .raised e)
  | .ok (ss, req) =>
    (update_output (update_info (update_title
        { st with theme_resolutions := st.theme_resolutions + 1 } ss) ss) ss,
     .ok (some req))

/-- Embeds `click_plot` (lines 56-70).  Its first statement is
`plotter = render_ss()` (line 64): a call to `render_ss` without the
required positional argument `clk` (line 178).  Every invocation
therefore raises `TypeError` before the body of `render_ss`, before the
VTK pane construction and before the `render_win[1]` write: no render
request is ever built, no text region is updated, no surface is
swapped, and the state is left exactly as it was. -/
def click_plot (env : Env) (st : AppState) : AppState × Outcome :=
  (st, Outcome.raised UIError.typeError)

/-- Modelled from the spec: assigning `rcsb_ss_widget.options = idlist`
(line 137) applies the `setItemIds` semantics of §4.1 (the behaviour of
the Panel `Select` widget, which is not part of this repository): an
empty list clears the value; a non-empty list keeps the current value
if it occurs in the list and otherwise selects the first element.  A
value change fires the watcher `click_plot` (line 141), which raises
`TypeError` after the value was committed. -/
def set_ss_options (env : Env) (st : AppState) (idlist : List String) :
    AppState × Outcome :=
  match idlist with
  | [] =>
    let st1 := { st with rcsb_ss_options := ([] : List String) }
    if st1.rcsb_ss_value = none then (st1, Outcome.ok none)
    else click_plot env { st1 with rcsb_ss_value := none }
  | first :: _ =>
    let st1 := { st with rcsb_ss_options := idlist }
    match st.rcsb_ss_value with
    | some v =>
      if v ∈ idlist then (st1, Outcome.ok none)
      else click_plot env { st1 with rcsb_ss_value := some first }
    | none => click_plot env { st1 with rcsb_ss_value := some first }

/-- Embeds `get_ss_idlist` (lines 123-138), the watcher on
`rcsb_selector_widget.value`: look the entry up, compute the name list
and assign it to `rcsb_ss_widget.options`.  A lookup failure escapes
(no handler in the source) after the selector value was already
committed by the widget. -/
def get_ss_idlist (env : Env) (st : AppState) (rcs_id : String) :
    AppState × Outcome :=
  match env.db.getEntry rcs_id with
  | none => (st, Outcome.raised UIError.unknownEntry)
  | some sslist => set_ss_options env st (sslist.map (fun ss => ss.name))

/-- The user-originated events of the browser, one per wired widget
callback (lines 77, 140-143).  In the staged program none is ever
dispatched — module load aborts at line 209 (see `startup`) — so the
event dynamics describe what the wiring does per delivered event. -/
inductive Event where
  | entrySelected : String → Event
  | itemSelected : String → Event
  | styleChanged : String → Event
  | viewModeChanged : Bool → Event
  | refreshRequested : Event
deriving DecidableEq, Repr

/-- One dispatch step: commit the widget mutation, then run the watcher
wired to it, synchronously to completion.  Widget-boundary behaviour:
the autocomplete has `restrict=True` (line 101), so an entry id outside
`RCSB_list` is silently rejected; `rcsb_ss_widget` and `styles_group`
are selectors, so values outside their options raise `ValueError`
without mutating; param fires watchers only on an actual value change.
Every path that reaches `click_plot` ends in the line-64 `TypeError`. -/
def handleEvent (env : Env) (st : AppState) : Event → AppState × Outcome
  | .entrySelected e =>
    if e ∈ RCSB_list env.db then
      if e = st.rcsb_selector_value then (st, Outcome.ok none)
      else get_ss_idlist env { st with rcsb_selector_value := e } e
    else (st, Outcome.ok none)
  | .itemSelected i =>
    if st.rcsb_ss_value = some i then (st, Outcome.ok none)
    else if i ∈ st.rcsb_ss_options then
      click_plot env { st with rcsb_ss_value := some i }
    else (st, Outcome.raised UIError.invalidItem)
  | .styleChanged v =>
    if st.styles_value = v then (st, Outcome.ok none)
    else if v ∈ styles_options then
      click_plot env { st with styles_value := v }
    else (st, Outcome.raised UIError.invalidStyle)
  | .viewModeChanged f =>
    if st.single_value = f then (st, Outcome.ok none)
    else
      let st1 := { st with single_value := f }
      let st2 :=
        if f = true then { st1 with styles_disabled := false }
        else { st1 with styles_disabled := true }
      click_plot env st2
  | .refreshRequested => click_plot env st

/-- `_rcsid = '2q7q'` (line 21). -/
def _rcsid : String := "2q7q"

/-- `_default_ss = '2q7q_75D_140D'` (line 22). -/
def _default_ss : String := "2q7q_75D_140D"

/-- `_ssidlist` (lines 23-30). -/
def _ssidlist : List String :=
  ["2q7q_75D_140D", "2q7q_81D_113D", "2q7q_88D_171D", "2q7q_90D_138D",
   "2q7q_91D_135D", "2q7q_98D_129D", "2q7q_130D_161D"]

/-- The module-level widget state right after construction (lines
74-108): default entry, hardcoded item list and default item, first
style option (`RadioBoxGroup` selects its first option), single view
on, placeholder texts, no surface yet, no theme resolution performed. -/
def initState : AppState :=
  { rcsb_selector_value := _rcsid
    rcsb_ss_options := _ssidlist
    rcsb_ss_value := some _default_ss
    styles_value := "Split Bonds"
    styles_disabled := false
    single_value := true
    title_md := "Title"
    info_md := "SS Info"
    output_md := "Output goes here"
    render_win := none
    theme_resolutions := 0 }

/-- Embeds lines 209-217, executed at module load: `plotter =
render_ss()` (line 209) calls `render_ss` without the required `clk`
argument and raises `TypeError`, aborting module execution before the
VTK pane and `render_win` are built — the session never starts.  The
state paired with the raise is the widget state already constructed by
lines 74-108. -/
def startup : AppState × Outcome :=
  (initState, Outcome.raised UIError.typeError)

/-- One event step of the wiring (outcome discarded: were a session
running, an exception escaping a watcher would be logged by the server
loop and the widget state would persist). -/
def step (env : Env) (st : AppState) (ev : Event) : AppState :=
  (handleEvent env st ev).1

/-- Run a finite sequence of events from a state. -/
def run (env : Env) (evs : List Event) (st : AppState) : AppState :=
  evs.foldl (step env) st

/-- The referential invariant of §3: the selected item is one of the
offered item ids, or selection and item list are both empty. -/
def ItemInv (st : AppState) : Prop :=
  (∃ v, st.rcsb_ss_value = some v ∧ v ∈ st.rcsb_ss_options) ∨
    (st.rcsb_ss_value = none ∧ st.rcsb_ss_options = [])

/-- The style widget only ever holds one of its three options. -/
def StyleInv (st : AppState) : Prop :=
  st.styles_value ∈ styles_options

/-- A disulfide of entry `e` named `n`, with zero numeric fields (used
in concrete scenarios, where the numeric fields are irrelevant). -/
def itemOf (e : String) (n : String) : Disulfide :=
  { pdb_id := e, name := n, energy := 0, resolution := 0,
    ca_distance := 0, cb_distance := 0, torsion_length := 0 }

/-- A concrete database holding exactly the default entry `2q7q` with
the hardcoded item list of the source. -/
def db2q7q : DisulfideLoader :=
  { SSDict := [("2q7q", _ssidlist.map (itemOf "2q7q"))] }

/-- A session over `db2q7q` with no query arguments and a renderer that
always succeeds. -/
def env2q7q : Env :=
  { db := db2q7q, session_args := [], plot_fails := fun _ => false }

/-- A session over `db2q7q` whose rendering collaborator fails on every
request. -/
def envFail : Env :=
  { db := db2q7q, session_args := [], plot_fails := fun _ => true }

/-- A widget state whose selected item id is absent from `db2q7q`. -/
def stBad : AppState :=
  { initState with rcsb_ss_value := some "9xyz_1D_2D",
                   rcsb_ss_options := ["9xyz_1D_2D"] }

/-- `click_plot` raises `TypeError` (line 64) and leaves every field of
the state untouched. -/
lemma click_plot_eq (env : Env) (st : AppState) :
    click_plot env st = (st, Outcome.raised UIError.typeError) := rfl

/-- `click_plot` never mutates a widget value (it never mutates
anything: the line-64 call raises before any work). -/
lemma click_plot_fields (env : Env) (st : AppState) :
    (click_plot env st).1.rcsb_selector_value = st.rcsb_selector_value
    ∧ (click_plot env st).1.rcsb_ss_options = st.rcsb_ss_options
    ∧ (click_plot env st).1.rcsb_ss_value = st.rcsb_ss_value
    ∧ (click_plot env st).1.styles_value = st.styles_value
    ∧ (click_plot env st).1.styles_disabled = st.styles_disabled
    ∧ (click_plot env st).1.single_value = st.single_value :=
  ⟨rfl, rfl, rfl, rfl, rfl, rfl⟩

/-- `click_plot` preserves the selection invariant. -/
lemma ItemInv_click_plot (env : Env) (st : AppState) (h : ItemInv st) :
    ItemInv (click_plot env st).1 := h

/-- `click_plot` preserves the style invariant. -/
lemma StyleInv_click_plot (env : Env) (st : AppState) (h : StyleInv st) :
    StyleInv (click_plot env st).1 := h

/-- Equation: assigning an empty option list when the selection is
already cleared is a pure option write. -/
lemma set_ss_options_nil_none (env : Env) (st : AppState)
    (hv : st.rcsb_ss_value = none) :
    set_ss_options env st [] =
      ({ st with rcsb_ss_options := ([] : List String) }, Outcome.ok none) := by
  simp [set_ss_options, hv]

/-- Equation: assigning an empty option list clears the selection and
fires the render watcher. -/
lemma set_ss_options_nil_some (env : Env) (st : AppState)
    (hv : st.rcsb_ss_value ≠ none) :
    set_ss_options env st [] =
      click_plot env { st with rcsb_ss_options := ([] : List String),
                               rcsb_ss_value := none } := by
  simp [set_ss_options, hv]

/-- Equation: a non-empty option list containing the current value keeps
the selection, and no watcher fires. -/
lemma set_ss_options_cons_keep (env : Env) (st : AppState)
    (first : String) (rest : List String) (v : String)
    (hv : st.rcsb_ss_value = some v) (hm : v ∈ first :: rest) :
    set_ss_options env st (first :: rest) =
      ({ st with rcsb_ss_options := first :: rest }, Outcome.ok none) := by
  simp [set_ss_options, hv, hm]

/-- Equation: a non-empty option list not containing the current value
selects the head and fires the render watcher. -/
lemma set_ss_options_cons_new (env : Env) (st : AppState)
    (first : String) (rest : List String) (v : String)
    (hv : st.rcsb_ss_value = some v) (hm : v ∉ first :: rest) :
    set_ss_options env st (first :: rest) =
      click_plot env { st with rcsb_ss_options := first :: rest,
                               rcsb_ss_value := some first } := by
  simp [set_ss_options, hv, hm]

/-- Equation: a non-empty option list with no current value selects the
head and fires the render watcher. -/
lemma set_ss_options_cons_none (env : Env) (st : AppState)
    (first : String) (rest : List String)
    (hv : st.rcsb_ss_value = none) :
    set_ss_options env st (first :: rest) =
      click_plot env { st with rcsb_ss_options := first :: rest,
                               rcsb_ss_value := some first } := by
  simp [set_ss_options, hv]

/-- Assigning a fresh option list keeps both invariants: an empty list
clears the selection, a non-empty list keeps a still-valid value or
falls back to the head. -/
lemma Inv_set_ss_options (env : Env) (st : AppState) (idlist : List String)
    (hs : StyleInv st) :
    ItemInv (set_ss_options env st idlist).1 ∧ StyleInv (set_ss_options env st idlist).1 := by
  cases idlist with
  | nil =>
    by_cases hv : st.rcsb_ss_value = none
    · rw [set_ss_options_nil_none env st hv]
      constructor
      · exact Or.inr ⟨hv, rfl⟩
      · simpa [StyleInv] using hs
    · rw [set_ss_options_nil_some env st hv]
      constructor
      · exact ItemInv_click_plot env _ (Or.inr ⟨rfl, rfl⟩)
      · exact StyleInv_click_plot env _ (by simpa [StyleInv] using hs)
  | cons first rest =>
    cases hv : st.rcsb_ss_value with
    | some v =>
      by_cases hmem : v ∈ first :: rest
      · rw [set_ss_options_cons_keep env st first rest v hv hmem]
        constructor
        · exact Or.inl ⟨v, hv, hmem⟩
        · simpa [StyleInv] using hs
      · rw [set_ss_options_cons_new env st first rest v hv hmem]
        constructor
        · exact ItemInv_click_plot env _ (Or.inl ⟨first, rfl, by simp⟩)
        · exact StyleInv_click_plot env _ (by simpa [StyleInv] using hs)
    | none =>
      rw [set_ss_options_cons_none env st first rest hv]
      constructor
      · exact ItemInv_click_plot env _ (Or.inl ⟨first, rfl, by simp⟩)
      · exact StyleInv_click_plot env _ (by simpa [StyleInv] using hs)

/-- Every event step preserves both invariants. -/
lemma step_inv (env : Env) (st : AppState) (ev : Event)
    (h : ItemInv st ∧ StyleInv st) :
    ItemInv (step env st ev) ∧ StyleInv (step env st ev) := by
  obtain ⟨hi, hs⟩ := h
  cases ev with
  | entrySelected e =>
    simp only [step, handleEvent]
    split
    · split
      · exact ⟨hi, hs⟩
      · unfold get_ss_idlist
        cases hdb : env.db.getEntry e with
        | none =>
          constructor
          · simpa [ItemInv] using hi
          · simpa [StyleInv] using hs
        | some sslist =>
          exact Inv_set_ss_options env _ _ (by simpa [StyleInv] using hs)
    · exact ⟨hi, hs⟩
  | itemSelected i =>
    simp only [step, handleEvent]
    split
    · exact ⟨hi, hs⟩
    · split
      · constructor
        · refine ItemInv_click_plot env _ (Or.inl ⟨i, rfl, ?_⟩)
          simpa using (by assumption : i ∈ st.rcsb_ss_options)
        · exact StyleInv_click_plot env _ (by simpa [StyleInv] using hs)
      · exact ⟨hi, hs⟩
  | styleChanged v =>
    simp only [step, handleEvent]
    split
    · exact ⟨hi, hs⟩
    · split
      · constructor
        · exact ItemInv_click_plot env _ (by simpa [ItemInv] using hi)
        · refine StyleInv_click_plot env _ ?_
          simpa [StyleInv] using (by assumption : v ∈ styles_options)
      · exact ⟨hi, hs⟩
  | viewModeChanged f =>
    simp only [step, handleEvent]
    split
    · exact ⟨hi, hs⟩
    · split
      · constructor
        · exact ItemInv_click_plot env _ (by simpa [ItemInv] using hi)
        · exact StyleInv_click_plot env _ (by simpa [StyleInv] using hs)
      · constructor
        · exact ItemInv_click_plot env _ (by simpa [ItemInv] using hi)
        · exact StyleInv_click_plot env _ (by simpa [StyleInv] using hs)
  | refreshRequested =>
    simp only [step, handleEvent]
    exact ⟨ItemInv_click_plot env st hi, StyleInv_click_plot env st hs⟩

/-- Both invariants are stable under any finite event sequence. -/
lemma run_inv (env : Env) (evs : List Event) (st : AppState)
    (h : ItemInv st ∧ StyleInv st) :
    ItemInv (run env evs st) ∧ StyleInv (run env evs st) := by
  induction evs generalizing st with
  | nil => simpa [run] using h
  | cons ev evs ih =>
    have : run env (ev :: evs) st = run env evs (step env st ev) := rfl
    rw [this]
    exact ih _ (step_inv env st ev h)

/-- The constructed widget state satisfies both invariants. -/
lemma Inv_initState : ItemInv initState ∧ StyleInv initState := by
  constructor
  · exact Or.inl ⟨_default_ss, rfl, by decide⟩
  · unfold StyleInv
    decide

/-- Equation: the entry watcher on a failing entry lookup. -/
lemma get_ss_idlist_none (env : Env) (st : AppState) (rcs_id : String)
    (h : env.db.getEntry rcs_id = none) :
    get_ss_idlist env st rcs_id = (st, Outcome.raised UIError.unknownEntry) := by
  simp [get_ss_idlist, h]

/-- Equation: the entry watcher on a successful entry lookup. -/
lemma get_ss_idlist_some (env : Env) (st : AppState) (rcs_id : String)
    (sslist : List Disulfide) (h : env.db.getEntry rcs_id = some sslist) :
    get_ss_idlist env st rcs_id =
      set_ss_options env st (sslist.map (fun ss => ss.name)) := by
  simp [get_ss_idlist, h]

/-- What a successful render computation of the (dead) body guarantees
about the request it would issue: the style is the table code of the
widget's label, the view flag and `shadows=False` are passed through,
the item is the resolved disulfide, and the light flag is the negation
of the dark theme. -/
lemma compute_render_ok (env : Env) (ss_id : Option String) (lbl : String)
    (single : Bool) (ss : Disulfide) (req : RenderRequest)
    (h : compute_render env ss_id lbl single = .ok (ss, req)) :
    styles.lookup lbl = some req.style
    ∧ req.single = single
    ∧ req.shadows = false
    ∧ env.db.getSS ss_id = some ss
    ∧ req.item = ss.name
    ∧ (req.light = false ↔ get_theme env.session_args = some "dark") := by
  unfold compute_render at h
  cases hg : get_theme env.session_args with
  | none => rw [hg] at h; exact absurd h (by simp)
  | some theme =>
    rw [hg] at h
    cases hss : env.db.getSS ss_id with
    | none => rw [hss] at h; exact absurd h (by simp)
    | some ss0 =>
      rw [hss] at h
      cases hst : styles.lookup lbl with
      | none => rw [hst] at h; exact absurd h (by simp)
      | some code =>
        rw [hst] at h
        simp at h
        split at h
        · exact absurd h (by simp)
        · simp only [Except.ok.injEq, Prod.mk.injEq] at h
          obtain ⟨hss0, hreq⟩ := h
          subst hss0
          subst hreq
          refine ⟨rfl, rfl, rfl, rfl, rfl, ?_⟩
          by_cases hth : theme = "dark"
          · subst hth; simp
          · simp [hth]

/-- An option-list assignment never advances the theme-resolution
counter: the only render path it can take is `click_plot`, which raises
`TypeError` without entering the body of `render_ss`. -/
lemma set_ss_options_counter (env : Env) (st : AppState) (l : List String) :
    (set_ss_options env st l).1.theme_resolutions = st.theme_resolutions := by
  cases l with
  | nil =>
    by_cases hv : st.rcsb_ss_value = none
    · rw [set_ss_options_nil_none env st hv]
    · rw [set_ss_options_nil_some env st hv]
      rfl
  | cons first rest =>
    cases hv : st.rcsb_ss_value with
    | some v =>
      by_cases hmem : v ∈ first :: rest
      · rw [set_ss_options_cons_keep env st first rest v hv hmem]
      · rw [set_ss_options_cons_new env st first rest v hv hmem]
        rfl
    | none =>
      rw [set_ss_options_cons_none env st first rest hv]
      rfl

/-- No event step advances the theme-resolution counter: every render
attempt dies at the line-64 `TypeError` before `get_theme()`. -/
lemma step_theme_resolutions (env : Env) (st : AppState) (ev : Event) :
    (step env st ev).theme_resolutions = st.theme_resolutions := by
  cases ev with
  | entrySelected e =>
    simp only [step, handleEvent]
    split
    · split
      · rfl
      · unfold get_ss_idlist
        cases hdb : env.db.getEntry e with
        | none => rfl
        | some sslist => exact set_ss_options_counter env _ _
    · rfl
  | itemSelected i =>
    simp only [step, handleEvent]
    split
    · rfl
    · split
      · rfl
      · rfl
  | styleChanged v =>
    simp only [step, handleEvent]
    split
    · rfl
    · split
      · rfl
      · rfl
  | viewModeChanged f =>
    simp only [step, handleEvent]
    split
    · rfl
    · split
      · rfl
      · rfl
  | refreshRequested => rfl

/-- The theme-resolution counter is constant under any finite event
sequence. -/
lemma run_theme_resolutions (env : Env) (evs : List Event) (st : AppState) :
    (run env evs st).theme_resolutions = st.theme_resolutions := by
  induction evs generalizing st with
  | nil => rfl
  | cons ev evs ih =>
    have h : run env (ev :: evs) st = run env evs (step env st ev) := rfl
    rw [h, ih, step_theme_resolutions]

/-- C1: for every reachable UIState (after any finite sequence of the
events EntrySelected, ItemSelected, StyleChanged, ViewModeChanged,
RefreshRequested starting from the initial state), either the selected
item id is a member of the offered item-id list, or the selection and
the item-id list are both empty.  The dynamics are the faithful ones:
every render attempt raises `TypeError` at line 64 without mutating
anything, and in the staged program module load itself aborts at line
209, so only the constructed initial state (the base of this induction)
is ever realized. -/
theorem C1_selection_invariant (env : Env) (evs : List Event) :
    (∃ v, (run env evs initState).rcsb_ss_value = some v
        ∧ v ∈ (run env evs initState).rcsb_ss_options)
    ∨ ((run env evs initState).rcsb_ss_value = none
        ∧ (run env evs initState).rcsb_ss_options = []) :=
  (run_inv env evs initState Inv_initState).1

/-- C10: the style-label-to-engine-code table of line 182 is total over
every value the styles widget can hold: in every reachable state the
lookup of the widget's value succeeds, and the three selectable labels
map to `sb`, `cpk` and `bs` respectively.  (In the staged program the
lookup site, line 199, never executes — every `render_ss()` call raises
`TypeError` first — so in particular it never raises a missing-key
error; the totality proved here is a static property of the table and
of the values the widget can reach.) -/
theorem C10_style_mapping_total (env : Env) (evs : List Event) :
    (styles.lookup (run env evs initState).styles_value).isSome = true
    ∧ styles.lookup "Split Bonds" = some "sb"
    ∧ styles.lookup "CPK" = some "cpk"
    ∧ styles.lookup "Ball and Stick" = some "bs" := by
  have h : StyleInv (run env evs initState) :=
    (run_inv env evs initState Inv_initState).2
  unfold StyleInv styles_options at h
  refine ⟨?_, rfl, rfl, rfl⟩
  simp only [List.mem_cons, List.mem_singleton, List.not_mem_nil, or_false] at h
  rcases h with h | h | h <;> rw [h] <;> rfl

/-- C9: the presenter functions are pure functions of the item: the
title region receives the item's name (as a markdown heading), the info
region a multi-line block listing resolution, energy, Cα distance,
Cβ distance and torsion length at 2-decimal precision with units
(Å, kcal/mol, degree sign), the output region a single-line equivalent;
none of them depends on the prior display state, and the same item
always yields identical text. -/
theorem C9_presenter_pure (st : AppState) (ss : Disulfide) :
    (update_title st ss).title_md = "## " ++ ss.name
    ∧ (update_info st ss).info_md =
        "### " ++ ss.name ++ "  \n**Resolution:** " ++ fmt2 ss.resolution ++
        " Å  \n**Energy:** " ++ fmt2 ss.energy ++
        " kcal/mol  \n**Cα distance:** " ++ fmt2 ss.ca_distance ++
        " Å  \n**Cβ distance:** " ++ fmt2 ss.cb_distance ++
        " Å  \n**Torsion Length:** " ++ fmt2 ss.torsion_length ++ "°"
    ∧ (update_output st ss).output_md =
        "**Cα-Cα:** " ++ fmt2 ss.ca_distance ++
        " Å **Cβ-Cβ:** " ++ fmt2 ss.cb_distance ++
        " Å **Torsion Length:** " ++ fmt2 ss.torsion_length ++
        "° **Resolution:** " ++ fmt2 ss.resolution ++
        " Å **Energy:** " ++ fmt2 ss.energy ++ " kcal/mol"
    ∧ (∀ st2 : AppState,
        (update_title st ss).title_md = (update_title st2 ss).title_md
        ∧ (update_info st ss).info_md = (update_info st2 ss).info_md
        ∧ (update_output st ss).output_md = (update_output st2 ss).output_md) :=
  ⟨rfl, rfl, rfl, fun _ => ⟨rfl, rfl, rfl⟩⟩

/-- C7: theme resolution returns `dark` exactly when the request-context
flag is present and its first value is the dark marker; for every other
well-formed context (flag absent or holding any other value) it returns
`default`.  (Well-formed: a present key maps to a non-empty value list,
which is what the HTTP query parser guarantees; on an empty value list
the source line `args["theme"][0]` would raise `IndexError`.) -/
theorem C7_theme_resolution (args : List (String × List String))
    (hwf : ∀ l, args.lookup "theme" = some l → l ≠ []) :
    (get_theme args = some "dark"
      ↔ (args.lookup "theme").bind List.head? = some "dark")
    ∧ ((args.lookup "theme").bind List.head? ≠ some "dark" →
        get_theme args = some "default") := by
  cases hl : args.lookup "theme" with
  | none => simp [get_theme, hl]
  | some vs =>
    cases vs with
    | nil => exact absurd rfl (hwf [] hl)
    | cons v t =>
      by_cases hv : v = "dark"
      · subst hv
        simp [get_theme, hl]
      · simp [get_theme, hl, hv]

/-- C7 witness: a context carrying the dark marker resolves to `dark`,
instantiating the theorem at a concrete well-formed context. -/
theorem C7_theme_resolution_witness :
    (get_theme [("theme", ["dark"])] = some "dark"
      ↔ (List.lookup "theme" [("theme", ["dark"])]).bind List.head? = some "dark")
    ∧ ((List.lookup "theme" [("theme", ["dark"])]).bind List.head? ≠ some "dark" →
        get_theme [("theme", ["dark"])] = some "default") := by
  refine C7_theme_resolution [("theme", ["dark"])] ?_
  intro l hl
  have he : List.lookup "theme" [("theme", ["dark"])] = some ["dark"] := rfl
  rw [he] at hl
  injection hl with hl2
  subst hl2
  simp

/-- C2 counterexample: in the staged program no EntrySelected cascade
ever completes — module load raises `TypeError` at line 209 (first
conjunct), so the session never starts.  At the widget level, were the
events delivered to the constructed widgets: select the second item of
entry `2q7q` (the value commits; the render watcher then raises
`TypeError` at line 64 without further effect), then fire
EntrySelected("2q7q") — the already-selected entry — which fires no
watcher because the selector value does not change.  The entry's item
list is non-empty with first id `2q7q_75D_140D`, yet the selected item
is still the second id: the default-selection law as stated fails. -/
theorem C2_counterexample :
    startup.2 = Outcome.raised UIError.typeError
    ∧ (run env2q7q [Event.itemSelected "2q7q_81D_113D", Event.entrySelected "2q7q"]
        initState).rcsb_ss_value = some "2q7q_81D_113D"
    ∧ (db2q7q.getEntry "2q7q").map (fun l => (l.map (fun ss => ss.name)).head?)
        = some (some "2q7q_75D_140D")
    ∧ ("2q7q_81D_113D" : String) ≠ "2q7q_75D_140D" :=
  ⟨rfl, rfl, rfl, by decide⟩

/-- C2 (amended): in the staged program no EntrySelected cascade ever
runs (module load aborts at line 209).  At the widget level, after
EntrySelected(e) where e's item list is non-empty: if e is already the
selected entry (or not a known entry id) the event is a no-op and the
state is unchanged; otherwise the selected item becomes the first id of
e's item list unless the previously selected item id itself occurs in
that list, in which case it is retained — and the subsequent render
watcher raises `TypeError` rather than rendering. -/
theorem C2_default_selection (env : Env) (st : AppState) (e : String)
    (items : List Disulfide)
    (hdb : env.db.getEntry e = some items) (hnil : items ≠ []) :
    ((e = st.rcsb_selector_value ∨ e ∉ RCSB_list env.db) →
      (handleEvent env st (Event.entrySelected e)).1 = st)
    ∧ (e ≠ st.rcsb_selector_value → e ∈ RCSB_list env.db →
        ((∀ v, st.rcsb_ss_value = some v → v ∉ items.map (fun ss => ss.name)) →
          (handleEvent env st (Event.entrySelected e)).1.rcsb_ss_value
            = (items.map (fun ss => ss.name)).head?)
        ∧ (∀ v, st.rcsb_ss_value = some v → v ∈ items.map (fun ss => ss.name) →
            (handleEvent env st (Event.entrySelected e)).1.rcsb_ss_value
              = st.rcsb_ss_value)) := by
  have hev : handleEvent env st (Event.entrySelected e)
      = if e ∈ RCSB_list env.db then
          (if e = st.rcsb_selector_value then (st, Outcome.ok none)
           else get_ss_idlist env { st with rcsb_selector_value := e } e)
        else (st, Outcome.ok none) := rfl
  constructor
  · intro hcase
    rcases hcase with hcur | hout
    · rw [hev]
      by_cases hm : e ∈ RCSB_list env.db
      · simp [hm, hcur]
      · simp [hm]
    · rw [hev]
      simp [hout]
  · intro hne hmem
    rw [hev]
    simp only [if_pos hmem, if_neg hne]
    rw [get_ss_idlist_some env _ e items (by simpa using hdb)]
    constructor
    · intro hnot
      cases hl : items.map (fun ss => ss.name) with
      | nil =>
        exact absurd (List.map_eq_nil_iff.mp hl) hnil
      | cons first rest =>
        cases hv : st.rcsb_ss_value with
        | none =>
          rw [set_ss_options_cons_none env _ first rest rfl]
          rw [(click_plot_fields env _).2.2.1]
          simp
        | some v =>
          have hnm : v ∉ first :: rest := by rw [← hl]; exact hnot v hv
          rw [set_ss_options_cons_new env _ first rest v rfl hnm]
          rw [(click_plot_fields env _).2.2.1]
          simp
    · intro v hv hvm
      cases hl : items.map (fun ss => ss.name) with
      | nil =>
        rw [hl] at hvm
        exact absurd hvm (by simp)
      | cons first rest =>
        rw [hl] at hvm
        rw [set_ss_options_cons_keep env _ first rest v (by simpa using hv) hvm]

/-- A state (not necessarily reachable) whose selected entry and item
differ from everything in `db2q7q`, used to instantiate
`C2_default_selection` away from its degenerate cases. -/
def stW : AppState :=
  { initState with rcsb_selector_value := "0abc",
                   rcsb_ss_value := some "zzz",
                   rcsb_ss_options := ["zzz"] }

/-- C2 witness: selecting entry `2q7q` from a state selecting a foreign
entry and item lands on the first id of the entry's item list. -/
theorem C2_default_selection_witness :
    (handleEvent env2q7q stW (Event.entrySelected "2q7q")).1.rcsb_ss_value
      = some "2q7q_75D_140D" := by
  have h := (C2_default_selection env2q7q stW "2q7q"
      (_ssidlist.map (itemOf "2q7q")) rfl (by decide)).2
      (by decide) (by decide)
  have h2 := h.1 (by intro v hv; simp [stW, initState] at hv; subst hv; decide)
  rw [h2]
  rfl

/-- C3: at an input whose selected item id is absent from the loader,
the real first failure of a render attempt is the `TypeError` of the
zero-argument `render_ss()` call at line 64 — the item lookup of line
192 is never reached, no error message is surfaced, and the previous
surface and output text are retained only because nothing runs at all
(first two conjuncts; the second shows even an always-failing renderer
is never consulted).  Independently, the body of `render_ss` (dead code
in the staged program), evaluated at the same input with its parameter
supplied, aborts before the renderer with the line-194 failure: the
recovery call `update_output(f'Cannot find ss_id ...')` raises
`AttributeError` reading `.energy` on the message string before the
output region is written (remaining conjuncts). -/
theorem C3_item_lookup_never_reached :
    (handleEvent env2q7q stBad Event.refreshRequested)
        = (stBad, Outcome.raised UIError.typeError)
    ∧ (handleEvent envFail stBad Event.refreshRequested)
        = (stBad, Outcome.raised UIError.typeError)
    ∧ (render_ss () env2q7q stBad).2 = Outcome.raised UIError.itemNotFound
    ∧ (render_ss () env2q7q stBad).1.output_md = stBad.output_md
    ∧ (render_ss () envFail stBad).2 = Outcome.raised UIError.itemNotFound
    ∧ stBad.output_md = "Output goes here" :=
  ⟨rfl, rfl, rfl, rfl, rfl, rfl⟩

/-- C4: the staged program's startup render call (line 209) raises
`TypeError` during module execution — a fatal error: the session never
starts.  Every event handler that a running session would dispatch
likewise raises `TypeError` at line 64 (here: a refresh from the
constructed state), leaving the state untouched. -/
theorem C4_startup_typeerror_fatal :
    startup = (initState, Outcome.raised UIError.typeError)
    ∧ (handleEvent env2q7q initState Event.refreshRequested).2
        = Outcome.raised UIError.typeError
    ∧ (handleEvent env2q7q initState Event.refreshRequested).1 = initState :=
  ⟨rfl, rfl, rfl⟩

/-- C5 counterexample: flip to multi-view, then change the style.  The
claim demands a subsequent render request whose applied style equals
the pre-flip value (`sb`); in fact no render request exists — the
style-change watcher raises `TypeError` at line 64 before any request
is built (first conjunct).  And the body of `render_ss` (dead code),
evaluated at the post-trace state with its parameter supplied, builds a
request carrying `bs`, the engine code of the newly stored style, even
though `singleView = false` (second conjunct): the claim fails on both
counts. -/
theorem C5_counterexample :
    (handleEvent env2q7q
        ((handleEvent env2q7q initState (Event.viewModeChanged false)).1)
        (Event.styleChanged "Ball and Stick")).2
      = Outcome.raised UIError.typeError
    ∧ (render_ss () env2q7q
        ((handleEvent env2q7q
            ((handleEvent env2q7q initState (Event.viewModeChanged false)).1)
            (Event.styleChanged "Ball and Stick")).1)).2
      = Outcome.ok (some { item := "2q7q_75D_140D", single := false, style := "bs",
                           shadows := false, light := true })
    ∧ styles.lookup "Split Bonds" = some "sb"
    ∧ ("bs" : String) ≠ "sb" :=
  ⟨rfl, rfl, rfl, by decide⟩

/-- C5 (amended): no render request is ever issued in the staged
program — every render attempt (`click_plot`) raises `TypeError` at
line 64 with no state change, so in particular no style is ever applied
to any request (first conjunct).  The body of `render_ss` (dead code),
were it invoked with its parameter, applies the engine code of the
style stored at render time to the request regardless of the view-mode
flag, and passes the flag alongside (second conjunct). -/
theorem C5_style_in_request (env : Env) (st : AppState) :
    click_plot env st = (st, Outcome.raised UIError.typeError)
    ∧ (∀ clk : Unit, ∀ req : RenderRequest,
        (render_ss clk env st).2 = Outcome.ok (some req) →
          styles.lookup st.styles_value = some req.style
          ∧ req.single = st.single_value) := by
  refine ⟨rfl, ?_⟩
  intro clk req h
  cases hc : compute_render env st.rcsb_ss_value st.styles_value st.single_value with
  | error e =>
    rw [render_ss, hc] at h
    exact absurd h (by simp)
  | ok p =>
    obtain ⟨ss, r⟩ := p
    rw [render_ss, hc] at h
    simp only [Outcome.ok.injEq, Option.some.injEq] at h
    subst h
    have hk := compute_render_ok env st.rcsb_ss_value st.styles_value
      st.single_value ss r hc
    exact ⟨hk.1, hk.2.1⟩

/-- C5 witness: at the constructed default state, the render attempt
raises `TypeError`, and the body's would-be request carries the stored
style's code `sb` and the stored view flag. -/
theorem C5_style_in_request_witness :
    click_plot env2q7q initState = (initState, Outcome.raised UIError.typeError)
    ∧ styles.lookup initState.styles_value
        = some ({ item := "2q7q_75D_140D", single := true, style := "sb",
                  shadows := false, light := true } : RenderRequest).style
    ∧ ({ item := "2q7q_75D_140D", single := true, style := "sb",
         shadows := false, light := true } : RenderRequest).single
        = initState.single_value :=
  ⟨(C5_style_in_request env2q7q initState).1,
   ((C5_style_in_request env2q7q initState).2 ()
     { item := "2q7q_75D_140D", single := true, style := "sb",
       shadows := false, light := true } rfl).1,
   ((C5_style_in_request env2q7q initState).2 ()
     { item := "2q7q_75D_140D", single := true, style := "sb",
       shadows := false, light := true } rfl).2⟩

/-- C6 counterexample: the theme is never resolved, let alone exactly
once at session start.  The startup render call raises `TypeError`
before reaching `get_theme()` at line 184 (first conjunct), and after
two refreshes from the constructed state the resolution counter is
still 0, not 1 (remaining conjuncts). -/
theorem C6_counterexample :
    startup.2 = Outcome.raised UIError.typeError
    ∧ (run env2q7q [Event.refreshRequested, Event.refreshRequested]
        initState).theme_resolutions = 0
    ∧ (0 : Nat) ≠ 1 :=
  ⟨rfl, rfl, by decide⟩

/-- C6 (amended): `get_theme` is never executed in the staged program —
its only call site (line 184) is inside the body of `render_ss`, and
every render attempt raises `TypeError` first, so the resolution
counter stays 0 under any finite event sequence (first conjunct).  The
body itself, were it invoked with its parameter, re-resolves the theme
on every render (one counter advance per body run) rather than caching
a single session value; since the session context is immutable, each
would-be request derives its light flag from the same resolved value
(second conjunct). -/
theorem C6_theme_never_resolved (env : Env) (evs : List Event) :
    (run env evs initState).theme_resolutions = 0
    ∧ (∀ clk : Unit, ∀ st : AppState,
        (render_ss clk env st).1.theme_resolutions = st.theme_resolutions + 1
        ∧ ∀ req, (render_ss clk env st).2 = Outcome.ok (some req) →
            (req.light = false ↔ get_theme env.session_args = some "dark")) := by
  constructor
  · rw [run_theme_resolutions]
    rfl
  · intro clk st
    constructor
    · cases hc : compute_render env st.rcsb_ss_value st.styles_value st.single_value with
      | error e => rw [render_ss, hc]
      | ok p =>
        obtain ⟨ss, r⟩ := p
        rw [render_ss, hc]
        rfl
    · intro req h
      cases hc : compute_render env st.rcsb_ss_value st.styles_value st.single_value with
      | error e =>
        rw [render_ss, hc] at h
        exact absurd h (by simp)
      | ok p =>
        obtain ⟨ss, r⟩ := p
        rw [render_ss, hc] at h
        simp only [Outcome.ok.injEq, Option.some.injEq] at h
        subst h
        exact (compute_render_ok env st.rcsb_ss_value st.styles_value
          st.single_value ss r hc).2.2.2.2.2

/-- C6 witness: one refresh leaves the counter at 0; the body of
`render_ss` at the constructed state advances the counter by one and
derives a light (non-dark) flag from the empty session context. -/
theorem C6_theme_never_resolved_witness :
    (run env2q7q [Event.refreshRequested] initState).theme_resolutions = 0
    ∧ (render_ss () env2q7q initState).1.theme_resolutions
        = initState.theme_resolutions + 1
    ∧ (({ item := "2q7q_75D_140D", single := true, style := "sb",
          shadows := false, light := true } : RenderRequest).light = false
        ↔ get_theme env2q7q.session_args = some "dark") :=
  ⟨(C6_theme_never_resolved env2q7q [Event.refreshRequested]).1,
   ((C6_theme_never_resolved env2q7q [Event.refreshRequested]).2 () initState).1,
   ((C6_theme_never_resolved env2q7q [Event.refreshRequested]).2 () initState).2
     { item := "2q7q_75D_140D", single := true, style := "sb",
       shadows := false, light := true } rfl⟩

/-- C8: a refresh does not trigger a render.  `click_plot` — wired to
the Refresh button (line 77) and documented as forcing a re-render —
raises `TypeError` at line 64 (the `render_ss()` call omits the
required `clk`), builds no request and mutates nothing; running it
twice in a row is trivially identical, but no render ever occurs. -/
theorem C8_refresh_raises_typeerror (env : Env) (st : AppState) :
    handleEvent env st Event.refreshRequested
      = (st, Outcome.raised UIError.typeError)
    ∧ handleEvent env (handleEvent env st Event.refreshRequested).1
        Event.refreshRequested
      = handleEvent env st Event.refreshRequested :=
  ⟨rfl, rfl⟩

end SSViewer
